import Mathlib

/-!
Verification development for the relying-party server (src/server.py).

The source is embedded shallowly:

* JSON documents are the inductive `Json` (a parsed `json.loads` result).
* The network is an environment function `fetch : String → Except FetchErr Json`
  combining `urlopen` and `json.loads` for one URL: a transport failure is
  `FetchErr.transport` (Python `URLError`, a subclass of `OSError`), a body that
  is not valid JSON is `FetchErr.badJson` (Python `json.JSONDecodeError`, a
  subclass of `ValueError`).  Neither is a `RuntimeError`.
* Python exception values are the inductive `Exc`; the constructors record the
  exception class and the data used to build its message.  `Exc.isRuntimeError`
  tells which ones the `verify` handler catches.
* Identity tokens are modelled post-parse: a `Token` holds the JSON values the
  three dot-separated segments decode to.  RSA signature verification is an
  oracle `sigOk : RSAKey → Token → Bool` supplied by the environment.
* The global `NONCES` dict is threaded explicitly as an association list
  `Nonces` with the dict operations used by the source (set, pop, filter).
* Clock reads (`datetime.utcnow().timestamp()` and PyJWT's own clock) are the
  single instant `Env.now` (integer seconds).
-/

set_option linter.unusedVariables false

namespace DemoRP

/-- A parsed JSON value, as produced by `json.loads`. -/
inductive Json where
  | null
  | bool (b : Bool)
  | num (n : Int)
  | str (s : String)
  | arr (elems : List Json)
  | obj (fields : List (String × Json))

/-- Failure reasons raised inside `jwt.decode` (PyJWT).  All of them are wrapped
by `get_verified_email` into `RuntimeError("Invalid JWT: ...")`, so the precise
PyJWT exception class never escapes. -/
inductive JwtErr where
  | headerNotObject
  | invalidAlgorithm
  | signatureFailed
  | payloadNotObject
  | iatNotInt
  | nbfNotInt
  | immatureNbf
  | expNotInt
  | expired
  | missingIss
  | invalidIssuer
  | missingAud
  | invalidAudienceFormat
  | audienceMismatch
  deriving DecidableEq

/-- A Python exception value as raised by the source.  Constructors carry the
data that the source interpolates into the message. -/
inductive Exc where
  | noJwksUri                      -- RuntimeError("No jwks_uri in discovery document")
  | noKeys                         -- RuntimeError("No keys found in JWK Set")
  | unknownKey (kid : Json)        -- RuntimeError("Cannot find key with ID %s")
  | invalidJWT (e : JwtErr)        -- RuntimeError("Invalid JWT: %s")
  | invalidEmail (sub : String)    -- RuntimeError("Invalid email address: %s")
  | invalidNonce                   -- RuntimeError("Invalid or expired nonce")
  | urlError (msg : String)        -- urllib URLError, uncaught by verify
  | jsonDecodeError (msg : String) -- json.JSONDecodeError, uncaught by verify
  | keyError (field : String)      -- KeyError, uncaught by verify
  | typeError (msg : String)       -- TypeError, uncaught by verify
  | binasciiError                  -- binascii.Error from bad base64, uncaught
  | attributeError (msg : String)  -- AttributeError, uncaught by verify

/-- Which exception values the `except RuntimeError` handler in `verify`
catches: exactly the six raised via `raise RuntimeError(...)` in the source. -/
def Exc.isRuntimeError : Exc → Bool
  | .noJwksUri | .noKeys | .unknownKey _ | .invalidJWT _
  | .invalidEmail _ | .invalidNonce => true
  | _ => false

/-- Outcome of one `urlopen` + `.read().decode` + `json.loads` round trip. -/
inductive FetchErr where
  | transport (msg : String)
  | badJson (msg : String)

/-- Lift a fetch failure to the Python exception it raises inside
`discover_keys` (both escape `verify`, which only catches RuntimeError). -/
def FetchErr.toExc : FetchErr → Exc
  | .transport m => .urlError m
  | .badJson m => .jsonDecodeError m

/-- The result of `rsa.RSAPublicNumbers(e, n).public_key(...)`: the public key is its two
integer components. -/
structure RSAKey where
  e : Nat
  n : Nat

/-- An identity token after decoding its three segments. -/
structure Token where
  header : Json
  payload : Json
  signature : String

/-- The relevant entries of config.json. -/
structure Config where
  rp_origin : String
  portier_origin : String

/-- The environment a verification runs in: the network, the RSA signature
check, and the current clock reading (seconds). -/
structure Env where
  fetch : String → Except FetchErr Json
  sigOk : RSAKey → Token → Bool
  now : Int

/-- The global `NONCES` dict: nonce string to expiry timestamp. -/
abbrev Nonces := List (String × Int)

/-- The key set built by `discover_keys`: kid (a hashable JSON scalar) to
public key. -/
abbrev KeySet := List (Json × RSAKey)

/-- Scalar (hashable) JSON values: everything except arrays and objects. -/
def Json.isScalar : Json → Bool
  | .arr _ => false
  | .obj _ => false
  | _ => true

/-- Is this JSON value a string? -/
def Json.isStr : Json → Bool
  | .str _ => true
  | _ => false

/-- Equality of scalar JSON values (Python `==` restricted to the hashable
values that can appear as dict keys); false whenever either side is an array
or an object. -/
def Json.scalarEq : Json → Json → Bool
  | .null, .null => true
  | .bool a, .bool b => a == b
  | .num a, .num b => a == b
  | .str a, .str b => a == b
  | _, _ => false

/-- Python `d.get(k)` on a parsed JSON value: field lookup on an object,
`none` otherwise. -/
def Json.getField : Json → String → Option Json
  | .obj fs, k => (fs.find? (fun p => p.1 == k)).map (fun p => p.2)
  | _, _ => none

/-- Python subscript `d[k]` with a string key: on an object it is field lookup
raising `KeyError` when absent; on anything else it raises `TypeError`. -/
def Json.getItem : Json → String → Except Exc Json
  | .obj fs, k =>
    match fs.find? (fun p => p.1 == k) with
    | some p => .ok p.2
    | none => .error (.keyError k)
  | .arr _, _ => .error (.typeError "list indices must be integers")
  | .str _, _ => .error (.typeError "string indices must be integers")
  | _, _ => .error (.typeError "object is not subscriptable")

/-- Does the character sequence `n` occur contiguously inside `h`?  Helper for
Python `in` on strings. -/
def seqStarts : List Char → List Char → Bool
  | [], _ => true
  | _ :: _, [] => false
  | a :: as, b :: bs => a == b && seqStarts as bs

/-- Contiguous-subsequence search, Python `needle in haystack` for strings. -/
def seqContains (n : List Char) : List Char → Bool
  | [] => seqStarts n []
  | c :: cs => seqStarts n (c :: cs) || seqContains n cs

/-- Python `k in d` on a parsed JSON value: key membership for an object,
element membership for an array, substring test for a string, `TypeError`
otherwise. -/
def Json.pyContains : Json → String → Except Exc Bool
  | .obj fs, k => .ok (fs.any (fun p => p.1 == k))
  | .arr xs, k => .ok (xs.any (fun x => Json.scalarEq x (.str k)))
  | .str s, k => .ok (seqContains k.data s.data)
  | _, _ => .error (.typeError "argument is not iterable")

/-- Value of one base64 character after the urlsafe translation step
(`-`/`+` are 62, `_`/`/` are 63); `none` for padding and foreign characters,
which the permissive decoder discards. -/
def b64Val (c : Char) : Option Nat :=
  if 65 ≤ c.toNat ∧ c.toNat ≤ 90 then some (c.toNat - 65)
  else if 97 ≤ c.toNat ∧ c.toNat ≤ 122 then some (c.toNat - 97 + 26)
  else if 48 ≤ c.toNat ∧ c.toNat ≤ 57 then some (c.toNat - 48 + 52)
  else if c == '-' || c == '+' then some 62
  else if c == '_' || c == '/' then some 63
  else none

/-- Decode a stream of 6-bit values into bytes, four values to three bytes; a
leftover of a single value is the `binascii.Error` the Python decoder raises,
a leftover of two or three values yields the one or two bytes they determine
(the padding appended by `b64dec` makes these the well-formed cases). -/
def b64Groups : List Nat → Except Exc (List Nat)
  | [] => .ok []
  | [_] => .error .binasciiError
  | [a, b] => .ok [a * 4 + b / 16]
  | [a, b, c] => .ok [a * 4 + b / 16, (b % 16) * 16 + c / 4]
  | a :: b :: c :: d :: rest =>
    match b64Groups rest with
    | .ok bs => .ok ((a * 4 + b / 16) :: ((b % 16) * 16 + c / 4) :: ((c % 4) * 64 + d) :: bs)
    | .error e => .error e

/-- The `b64dec` of the source: urlsafe base64 decoding of an unpadded string
(the source re-appends padding; non-alphabet characters are discarded by the
permissive decoder).  Returns the decoded bytes. -/
def b64dec (s : String) : Except Exc (List Nat) :=
  b64Groups (s.data.filterMap b64Val)

/-- Big-endian byte interpretation, `int.from_bytes(bs, "big")`. -/
def intFromBytesBE (bs : List Nat) : Nat :=
  bs.foldl (fun acc b => acc * 256 + b) 0

/-- The `jwk_to_rsa` of the source: decode the `e` and `n` members (base64url,
unpadded, big-endian) into the RSA public key components.  A missing member
raises `KeyError`; a non-string member makes `.encode("ascii")` raise
`AttributeError`. -/
def jwk_to_rsa (key : Json) : Except Exc RSAKey :=
  match key.getItem "e" with
  | .error e => .error e
  | .ok (.str es) =>
    match b64dec es with
    | .error e => .error e
    | .ok eb =>
      match key.getItem "n" with
      | .error e => .error e
      | .ok (.str ns) =>
        match b64dec ns with
        | .error e => .error e
        | .ok nb => .ok { e := intFromBytesBE eb, n := intFromBytesBE nb }
      | .ok _ => .error (.attributeError "object has no attribute encode")
  | .ok _ => .error (.attributeError "object has no attribute encode")

/-- Insert into a Python dict modelled as an association list: an existing
binding for the key is overwritten in place, a new key is appended. -/
def dictInsert : KeySet → Json → RSAKey → KeySet
  | [], k, v => [(k, v)]
  | p :: m, k, v =>
    if Json.scalarEq p.1 k then (p.1, v) :: m else p :: dictInsert m k v

/-- Dict lookup in the key set. -/
def dictFind (m : KeySet) (k : Json) : Option RSAKey :=
  (m.find? (fun p => Json.scalarEq p.1 k)).map (fun p => p.2)

/-- Is this JWK entry declared with the one supported algorithm?  Python
`key["alg"] == "RS256"`. -/
def isRS256 : Json → Bool
  | .str s => s == "RS256"
  | _ => false

/-- The dict comprehension of `discover_keys`:
`{key["kid"]: jwk_to_rsa(key) for key in jwks["keys"] if key["alg"] == "RS256"}`.
Per entry: the filter expression runs first (`KeyError` when `alg` is absent),
then the key expression, then the value expression, then the insertion (which
raises `TypeError` for an unhashable kid). -/
def buildKeys (m : KeySet) : List Json → Except Exc KeySet
  | [] => .ok m
  | k :: rest =>
    match k.getItem "alg" with
    | .error e => .error e
    | .ok alg =>
      if isRS256 alg then
        match k.getItem "kid" with
        | .error e => .error e
        | .ok kidJ =>
          match jwk_to_rsa k with
          | .error e => .error e
          | .ok pk =>
            if kidJ.isScalar then buildKeys (dictInsert m kidJ pk) rest
            else .error (.typeError "unhashable type")
      else buildKeys m rest

/-- The `discover_keys` of the source: fetch the discovery document, require
`jwks_uri`, fetch the JWK Set, require `keys`, and build the kid-to-key dict
from the RS256 entries.  A non-array `keys` value mirrors Python iteration:
empty string and empty object iterate to nothing, any other non-array raises
`TypeError` at iteration or at the first subscript. -/
def discover_keys (fetch : String → Except FetchErr Json) (broker : String) :
    Except Exc KeySet :=
  match fetch (broker ++ "/.well-known/openid-configuration") with
  | .error fe => .error fe.toExc
  | .ok discovery =>
    match discovery.pyContains "jwks_uri" with
    | .error e => .error e
    | .ok false => .error .noJwksUri
    | .ok true =>
      match discovery.getItem "jwks_uri" with
      | .error e => .error e
      | .ok (.str uri) =>
        match fetch uri with
        | .error fe => .error fe.toExc
        | .ok jwks =>
          match jwks.pyContains "keys" with
          | .error e => .error e
          | .ok false => .error .noKeys
          | .ok true =>
            match jwks.getItem "keys" with
            | .error e => .error e
            | .ok (.arr ks) => buildKeys [] ks
            | .ok (.str "") => .ok []
            | .ok (.obj []) => .ok []
            | .ok _ => .error (.typeError "keys value is not iterable as a JWK list")
      | .ok _ => .error (.typeError "url must be a string")

/-- PyJWT leeway used by the source: 3 minutes. -/
def leeway : Int := 180

/-- Python `int(x)` on a JSON claim value, as used by the PyJWT timestamp
validators: numbers pass through, booleans coerce, numeric strings convert,
everything else raises (wrapped into `Invalid JWT` by the source). -/
def asPyInt : Json → Option Int
  | .num n => some n
  | .bool b => some (if b then 1 else 0)
  | .str s => s.toInt?
  | _ => none

/-- PyJWT `_validate_iat`: when present, `iat` must convert to an integer. -/
def validateIat (iat : Option Json) : Except JwtErr Unit :=
  match iat with
  | none => .ok ()
  | some v =>
    match asPyInt v with
    | some _ => .ok ()
    | none => .error .iatNotInt

/-- PyJWT `_validate_nbf`: when present, `nbf` must be an integer not in the
future beyond the leeway. -/
def validateNbf (nbf : Option Json) (now : Int) : Except JwtErr Unit :=
  match nbf with
  | none => .ok ()
  | some v =>
    match asPyInt v with
    | none => .error .nbfNotInt
    | some t => if t > now + leeway then .error .immatureNbf else .ok ()

/-- PyJWT `_validate_exp`: when present, `exp` must be an integer not in the
past beyond the leeway. -/
def validateExp (exp : Option Json) (now : Int) : Except JwtErr Unit :=
  match exp with
  | none => .ok ()
  | some v =>
    match asPyInt v with
    | none => .error .expNotInt
    | some t => if t < now - leeway then .error .expired else .ok ()

/-- PyJWT `_validate_iss` with an expected issuer: the claim must be present
and equal the expected issuer string. -/
def validateIss (iss : Option Json) (issuer : String) : Except JwtErr Unit :=
  match iss with
  | none => .error .missingIss
  | some (.str s) => if s == issuer then .ok () else .error .invalidIssuer
  | some _ => .error .invalidIssuer

/-- PyJWT `_validate_aud` with an expected audience: the claim must be present;
a string claim is wrapped into a one-element list; a non-list claim or a list
with a non-string element is a format error; otherwise the expected audience
must be a member of the list. -/
def validateAud (aud : Option Json) (audience : String) : Except JwtErr Unit :=
  match aud with
  | none => .error .missingAud
  | some a =>
    match (match a with
           | .str s => some [Json.str s]
           | .arr xs => some xs
           | _ => none) with
    | none => .error .invalidAudienceFormat
    | some cs =>
      if cs.all Json.isStr then
        if cs.any (fun j => match j with | .str s => s == audience | _ => false)
        then .ok () else .error .audienceMismatch
      else .error .invalidAudienceFormat

/-- PyJWT `_validate_claims` as configured by the source (verify defaults on,
audience and issuer given, leeway 3 minutes): iat, nbf, exp, then issuer, then
audience. -/
def validateClaims (p : Json) (audience issuer : String) (now : Int) :
    Except JwtErr Unit :=
  match validateIat (p.getField "iat") with
  | .error e => .error e
  | .ok _ =>
    match validateNbf (p.getField "nbf") now with
    | .error e => .error e
    | .ok _ =>
      match validateExp (p.getField "exp") now with
      | .error e => .error e
      | .ok _ =>
        match validateIss (p.getField "iss") issuer with
        | .error e => .error e
        | .ok _ => validateAud (p.getField "aud") audience

/-- The call `jwt.decode(token, pub_key, algorithms=["RS256"], audience=..., issuer=...,
leeway=180)`: the header must be a JSON object whose `alg` is in the allowed
list, the signature must verify with the given key, the payload must be a JSON
object, and the registered claims must validate.  Returns the payload. -/
def jwtDecode (sigOk : RSAKey → Token → Bool) (pubKey : RSAKey)
    (audience issuer : String) (now : Int) (tok : Token) : Except JwtErr Json :=
  match tok.header with
  | .obj _ =>
    match tok.header.getField "alg" with
    | some (.str "RS256") =>
      if sigOk pubKey tok then
        match tok.payload with
        | .obj _ =>
          match validateClaims tok.payload audience issuer now with
          | .error e => .error e
          | .ok _ => .ok tok.payload
        | _ => .error .payloadNotObject
      else .error .signatureFailed
    | _ => .error .invalidAlgorithm
  | _ => .error .headerNotObject

/-- Matching `re.match(".+@.+", s)` after the first character has been consumed: scan
for a separator `@` that has at least one character before it, no newline
before it, and a non-newline character directly after it. -/
def emailScanAt : List Char → Bool
  | [] => false
  | c :: rest =>
    if c == '\n' then false
    else if c == '@' then
      match rest with
      | d :: _ => if d == '\n' then emailScanAt rest else true
      | [] => false
    else emailScanAt rest

/-- Matching `re.match(".+@.+", s)` as a boolean: the subject check of the source. -/
def reMatchEmail (s : String) : Bool :=
  match s.data with
  | [] => false
  | c :: rest => if c == '\n' then false else emailScanAt rest

/-- The subject check of the source (lines 160-163): `payload["sub"]` (a
`KeyError` when absent escapes uncaught), then `re.match(".+@.+", subject)`
(a non-string subject raises `TypeError` inside `re.match`). -/
def subCheck (payload : Json) : Except Exc String :=
  match payload.getItem "sub" with
  | .error e => .error e
  | .ok (.str s) =>
    if reMatchEmail s then .ok s else .error (.invalidEmail s)
  | .ok _ => .error (.typeError "cannot use a string pattern on a non-string object")

/-- The stateless phase of `get_verified_email` (source lines 120-163): key
discovery, kid resolution, `jwt.decode`, and the subject shape check.  Returns
the verified subject.  Everything before the nonce bookkeeping lives here; the
nonce registry is untouched by this phase. -/
def checkToken (cfg : Config) (env : Env) (tok : Token) : Except Exc String :=
  match discover_keys env.fetch cfg.portier_origin with
  | .error e => .error e
  | .ok keys =>
    match tok.header.getItem "kid" with
    | .error e => .error e
    | .ok kidJ =>
      if kidJ.isScalar then
        match dictFind keys kidJ with
        | none => .error (.unknownKey kidJ)
        | some pubKey =>
          match jwtDecode env.sigOk pubKey cfg.rp_origin cfg.portier_origin env.now tok with
          | .error e => .error (.invalidJWT e)
          | .ok payload => subCheck payload
      else .error (.typeError "unhashable type")

/-- The nonce garbage collection of the source: keep entries whose expiry has
not passed. -/
def gcNonces (now : Int) (ns : Nonces) : Nonces :=
  ns.filter (fun p => decide (now ≤ p.2))

/-- The pop `NONCES.pop(v)` for the JSON value of the nonce claim: a string key is
popped when present and raises `KeyError` (reported as the nonce failure) when
absent; other hashable values never equal a stored string key; unhashable
values raise `TypeError`. -/
def popNonce (v : Json) (ns : Nonces) : Except Exc Nonces :=
  match v with
  | .str s =>
    if ns.any (fun p => p.1 == s) then .ok (ns.filter (fun p => !(p.1 == s)))
    else .error .invalidNonce
  | .arr _ => .error (.typeError "unhashable type: list")
  | .obj _ => .error (.typeError "unhashable type: dict")
  | _ => .error .invalidNonce

/-- The `get_verified_email` of the source, with the nonce registry threaded
explicitly.  After the stateless phase succeeds, expired nonces are purged,
then the nonce claim is popped; a missing claim and an unknown nonce raise the
same `KeyError` caught by the same handler, both reported as
`RuntimeError("Invalid or expired nonce")`. -/
def get_verified_email (cfg : Config) (env : Env) (tok : Token) (ns : Nonces) :
    Except Exc String × Nonces :=
  match checkToken cfg env tok with
  | .error e => (.error e, ns)
  | .ok subject =>
    match tok.payload.getField "nonce" with
    | none => (.error .invalidNonce, gcNonces env.now ns)
    | some v =>
      match popNonce v (gcNonces env.now ns) with
      | .ok ns2 => (.ok subject, ns2)
      | .error e => (.error e, gcNonces env.now ns)

/-- What the `/verify` route produces. -/
inductive VerifyOutcome where
  | verified (email : String)  -- 200, template("verified")
  | errorPage (e : Exc)        -- 400, template("error")
  | unhandled (e : Exc)        -- exception escaped the RuntimeError handler

/-- The `/verify` route: delegate to `get_verified_email`, catch only
`RuntimeError` (status 400 with the error page); any other exception escapes
the handler. -/
def verify (cfg : Config) (env : Env) (tok : Token) (ns : Nonces) :
    VerifyOutcome × Nonces :=
  match get_verified_email cfg env tok ns with
  | (.ok email, ns2) => (.verified email, ns2)
  | (.error e, ns2) =>
    if e.isRuntimeError then (.errorPage e, ns2) else (.unhandled e, ns2)

/-- Insert into the `NONCES` dict. -/
def nonceSet (ns : Nonces) (k : String) (v : Int) : Nonces :=
  if ns.any (fun p => p.1 == k) then
    ns.map (fun p => if p.1 == k then (k, v) else p)
  else ns ++ [(k, v)]

/-- The redirect the `/login` route produces: the broker auth URL base and the
query parameters in source order (the percent-encoding of `urlencode` is
presentation plumbing and is left unencoded here). -/
structure LoginRedirect where
  base : String
  params : List (String × String)

/-- The `/login` route: mint a nonce (the random `uuid4().hex` value is a
parameter), record it with a 30-minute expiry, and build the broker redirect. -/
def login (cfg : Config) (email nonce : String) (now : Int) (ns : Nonces) :
    Nonces × LoginRedirect :=
  let expiry := now + 30 * 60
  (nonceSet ns nonce expiry,
   { base := cfg.portier_origin ++ "/auth"
     params := [("login_hint", email), ("scope", "openid email"),
                ("nonce", nonce), ("response_type", "id_token"),
                ("client_id", cfg.rp_origin),
                ("redirect_uri", cfg.rp_origin ++ "/verify")] })

/-! ## A concrete deployment used by witnesses and counterexamples -/

/-- A concrete configuration. -/
def cfg0 : Config :=
  { rp_origin := "https://rp.example", portier_origin := "https://broker.example" }

/-- A concrete discovery document. -/
def discDoc : Json := .obj [("jwks_uri", .str "https://broker.example/keys")]

/-- A concrete well-formed RS256 JWK entry. -/
def jwkEntry : Json :=
  .obj [("alg", .str "RS256"), ("kid", .str "k1"),
        ("e", .str "AQAB"), ("n", .str "AQAB")]

/-- A concrete JWK Set document holding `jwkEntry`. -/
def jwksDoc : Json := .obj [("keys", .arr [jwkEntry])]

/-- A network serving the two discovery documents of the broker. -/
def fetch0 : String → Except FetchErr Json := fun u =>
  if u == "https://broker.example/.well-known/openid-configuration" then .ok discDoc
  else if u == "https://broker.example/keys" then .ok jwksDoc
  else .error (.transport "404")

/-- A concrete environment: the network above, a signature oracle accepting
everything (the token below is taken as properly signed), clock at 1000000. -/
def env0 : Env := { fetch := fetch0, sigOk := fun _ _ => true, now := 1000000 }

/-- Header naming the known key `k1`. -/
def tokHeader0 : Json := .obj [("alg", .str "RS256"), ("kid", .str "k1")]

/-- The claims shared by the concrete tokens: valid issuer, audience, subject
and timestamps for `cfg0`/`env0`. -/
def baseClaims : List (String × Json) :=
  [("iss", .str "https://broker.example"), ("aud", .str "https://rp.example"),
   ("sub", .str "alice@example.com"), ("exp", .num 1000500), ("iat", .num 999000)]

/-- A fully valid token carrying nonce `n-1`. -/
def tok0 : Token :=
  { header := tokHeader0
    payload := .obj (baseClaims ++ [("nonce", .str "n-1")])
    signature := "sig0" }

/-- Same claims but the audience is a different origin string; nonce `n-2`. -/
def tokBadAud : Token :=
  { header := tokHeader0
    payload := .obj [("iss", .str "https://broker.example"),
                     ("aud", .str "https://other.example"),
                     ("sub", .str "alice@example.com"), ("exp", .num 1000500),
                     ("iat", .num 999000), ("nonce", .str "n-2")]
    signature := "sig2" }

/-- Same claims but the audience is a two-element list that contains the
relying-party origin next to a foreign origin; nonce `n-5`. -/
def tokListAud : Token :=
  { header := tokHeader0
    payload := .obj [("iss", .str "https://broker.example"),
                     ("aud", .arr [.str "https://rp.example", .str "https://evil.example"]),
                     ("sub", .str "alice@example.com"), ("exp", .num 1000500),
                     ("iat", .num 999000), ("nonce", .str "n-5")]
    signature := "sig5" }

/-- A fully valid token except that it carries no nonce claim. -/
def tokNoNonce : Token :=
  { header := tokHeader0, payload := .obj baseClaims, signature := "sig3" }

/-- A token naming a key identifier absent from the broker key set. -/
def tokWrongKid : Token :=
  { header := .obj [("alg", .str "RS256"), ("kid", .str "k9")]
    payload := .obj (baseClaims ++ [("nonce", .str "n-6")])
    signature := "sig6" }

/-- A token valid in every gate up to the subject check but with no sub claim;
nonce `n-7`. -/
def tokNoSub : Token :=
  { header := tokHeader0
    payload := .obj [("iss", .str "https://broker.example"),
                     ("aud", .str "https://rp.example"), ("exp", .num 1000500),
                     ("iat", .num 999000), ("nonce", .str "n-7")]
    signature := "sig7" }

/-- A token whose subject is present but not shaped like an email address;
nonce `n-8`. -/
def tokBadSub : Token :=
  { header := tokHeader0
    payload := .obj [("iss", .str "https://broker.example"),
                     ("aud", .str "https://rp.example"),
                     ("sub", .str "not-an-email"), ("exp", .num 1000500),
                     ("iat", .num 999000), ("nonce", .str "n-8")]
    signature := "sig8" }

/-- The key set `discover_keys` builds from `jwksDoc`. -/
def keys0 : KeySet := [(.str "k1", { e := 65537, n := 65537 })]

/-- A network whose broker body is not valid JSON. -/
def envNoNet : Env :=
  { fetch := fun _ => .error (.badJson "Expecting value: line 1 column 1")
    sigOk := fun _ _ => true, now := 1000000 }

/-- A network with the broker unreachable. -/
def envDown : Env :=
  { fetch := fun _ => .error (.transport "connection refused")
    sigOk := fun _ _ => true, now := 1000000 }

/-- A network whose discovery document lacks `jwks_uri`. -/
def envNoUri : Env :=
  { fetch := fun _ => .ok (.obj [("issuer", .str "https://broker.example")])
    sigOk := fun _ _ => true, now := 1000000 }

/-- A network whose JWK Set document lacks the `keys` member. -/
def envNoKeys : Env :=
  { fetch := fun u =>
      if u == "https://broker.example/.well-known/openid-configuration" then .ok discDoc
      else if u == "https://broker.example/keys" then .ok (.obj [("kty", .str "RSA")])
      else .error (.transport "404")
    sigOk := fun _ _ => true, now := 1000000 }

/-- A network where the JWK Set fetch fails at the transport level. -/
def envKeysDown : Env :=
  { fetch := fun u =>
      if u == "https://broker.example/.well-known/openid-configuration" then .ok discDoc
      else .error (.transport "connection reset")
    sigOk := fun _ _ => true, now := 1000000 }

/-- A network whose JWK Set body is not valid JSON. -/
def envKeysBadJson : Env :=
  { fetch := fun u =>
      if u == "https://broker.example/.well-known/openid-configuration" then .ok discDoc
      else .error (.badJson "Expecting value: line 1 column 1")
    sigOk := fun _ _ => true, now := 1000000 }

/-- A JWK entry with no `alg` member. -/
def jwkNoAlg : Json := .obj [("kty", .str "RSA"), ("kid", .str "bad")]

/-- An RS256 JWK entry with no `e` member. -/
def jwkNoE : Json := .obj [("alg", .str "RS256"), ("kid", .str "bad2")]

/-- A non-RS256 JWK entry that also lacks kid, e and n. -/
def jwkES : Json := .obj [("alg", .str "ES256")]

/-- A network serving a key set whose entry lacks `alg`. -/
def envNoAlg : Env :=
  { fetch := fun u =>
      if u == "https://broker.example/.well-known/openid-configuration" then .ok discDoc
      else if u == "https://broker.example/keys" then .ok (.obj [("keys", .arr [jwkNoAlg])])
      else .error (.transport "404")
    sigOk := fun _ _ => true, now := 1000000 }

/-- A network serving a key set whose RS256 entry lacks `e`. -/
def envNoE : Env :=
  { fetch := fun u =>
      if u == "https://broker.example/.well-known/openid-configuration" then .ok discDoc
      else if u == "https://broker.example/keys" then .ok (.obj [("keys", .arr [jwkNoE])])
      else .error (.transport "404")
    sigOk := fun _ _ => true, now := 1000000 }

/-- A network serving a key set with one RS256 entry and one ES256 entry. -/
def envMixed : Env :=
  { fetch := fun u =>
      if u == "https://broker.example/.well-known/openid-configuration" then .ok discDoc
      else if u == "https://broker.example/keys" then .ok (.obj [("keys", .arr [jwkEntry, jwkES])])
      else .error (.transport "404")
    sigOk := fun _ _ => true, now := 1000000 }

/-! ## Spec-side comparison definitions -/

/-- The spec error taxonomy members that arise before the nonce-consume step:
discovery failures (transport, malformed JSON, missing required field), the
unknown-key failure, and the signature and claim failures (everything wrapped
as Invalid JWT, plus the malformed-subject claim error). -/
def Exc.preNonceClass : Exc → Prop
  | .noJwksUri => True
  | .noKeys => True
  | .urlError _ => True
  | .jsonDecodeError _ => True
  | .unknownKey _ => True
  | .invalidJWT _ => True
  | .invalidEmail _ => True
  | _ => False

/-- Does the audience claim pass PyJWT validation?  A string claim must equal
the expected audience; a list claim must consist of strings and contain the
expected audience; anything else fails. -/
def audOk (a : Option Json) (audience : String) : Bool :=
  match a with
  | some (.str s) => s == audience
  | some (.arr xs) =>
    xs.all Json.isStr &&
      xs.any (fun j => match j with | .str s => s == audience | _ => false)
  | _ => false

/-- Modelled from the spec: the key mapping described in the specification of
`discover_keys`, namely the fetched JWK entries declaring the supported
algorithm, each keyed by its key identifier with its decoded modulus and
exponent; entries declaring any other algorithm are dropped. -/
def specRS256 (ks : List Json) : KeySet :=
  ks.filterMap (fun k =>
    match k.getItem "alg", k.getItem "kid", jwk_to_rsa k with
    | .ok a, .ok kidJ, .ok pk =>
      if isRS256 a && kidJ.isScalar then some (kidJ, pk) else none
    | _, _, _ => none)

/-- Dict semantics with later duplicate keys winning: lookup from the right. -/
def dictFindLast (m : KeySet) (x : Json) : Option RSAKey :=
  dictFind m.reverse x


/-! ## Helper lemmas -/

/-- The nonce-consume step can only fail as the RuntimeError reported for an
unknown or expired nonce, or as the TypeError of an unhashable claim value. -/
theorem popNonce_error_shape {v : Json} {ns : Nonces} {e : Exc}
    (h : popNonce v ns = .error e) :
    e = .invalidNonce ∨ e = .typeError "unhashable type: list" ∨
      e = .typeError "unhashable type: dict" := by
  cases v with
  | null => exact Or.inl (Except.error.inj h).symm
  | bool b => exact Or.inl (Except.error.inj h).symm
  | num n => exact Or.inl (Except.error.inj h).symm
  | str s =>
    rw [show popNonce (.str s) ns =
          (if (ns.any fun p => p.1 == s) = true then
            Except.ok (ns.filter fun p => !(p.1 == s))
          else Except.error Exc.invalidNonce) from rfl] at h
    split at h
    · exact Except.noConfusion h
    · exact Or.inl (Except.error.inj h).symm
  | arr xs => exact Or.inr (Or.inl (Except.error.inj h).symm)
  | obj fs => exact Or.inr (Or.inr (Except.error.inj h).symm)

/-! ## Claims -/

/-- Claim C10: a syntactically valid JSON key-set document whose keys array
contains an entry missing the alg (or e) field makes `discover_keys` raise an
uncaught `KeyError` instead of any error of the documented taxonomy, and such
a document crashes the verify endpoint (the exception is not a RuntimeError,
so the handler does not produce the 400 page). -/
theorem C10_missing_jwk_field_crash :
    discover_keys envNoAlg.fetch cfg0.portier_origin = .error (.keyError "alg")
    ∧ discover_keys envNoE.fetch cfg0.portier_origin = .error (.keyError "e")
    ∧ (Exc.keyError "alg").isRuntimeError = false
    ∧ verify cfg0 envNoAlg tok0 [] = (.unhandled (.keyError "alg"), []) :=
  ⟨rfl, rfl, rfl, rfl⟩

/-- Claim C2: whenever `get_verified_email` fails with an error of the
discovery, unknown-key, signature or claim classes (any failure other than the
nonce-consume step itself), the nonce registry is returned unchanged. -/
theorem C2_registry_frame {cfg : Config} {env : Env} {tok : Token}
    {ns ns2 : Nonces} {e : Exc}
    (h : get_verified_email cfg env tok ns = (.error e, ns2))
    (hc : e.preNonceClass) : ns2 = ns := by
  cases hk : checkToken cfg env tok with
  | error e1 =>
    simp only [get_verified_email, hk, Prod.mk.injEq] at h
    exact h.2.symm
  | ok subject =>
    cases hg : tok.payload.getField "nonce" with
    | none =>
      simp only [get_verified_email, hk, hg, Prod.mk.injEq] at h
      rw [← Except.error.inj h.1] at hc
      exact hc.elim
    | some v =>
      cases hp : popNonce v (gcNonces env.now ns) with
      | ok ns3 =>
        simp only [get_verified_email, hk, hg, hp, Prod.mk.injEq] at h
        exact Except.noConfusion h.1
      | error e2 =>
        simp only [get_verified_email, hk, hg, hp, Prod.mk.injEq] at h
        have he := Except.error.inj h.1
        rcases popNonce_error_shape hp with h1 | h1 | h1 <;>
          · rw [h1] at he
            rw [← he] at hc
            exact hc.elim

/-- Witness for C2: a token failing the audience check leaves a populated
registry untouched. -/
theorem C2_registry_frame_witness :
    get_verified_email cfg0 env0 tokBadAud [("n-2", 2000000)] =
      (.error (.invalidJWT .audienceMismatch), [("n-2", 2000000)])
    ∧ (Exc.invalidJWT .audienceMismatch).preNonceClass
    ∧ ([("n-2", 2000000)] : Nonces) = [("n-2", 2000000)] :=
  ⟨rfl, trivial,
   @C2_registry_frame cfg0 env0 tokBadAud [("n-2", 2000000)] [("n-2", 2000000)]
     (.invalidJWT .audienceMismatch) rfl trivial⟩

/-- Counterexample to claim C3: a token that passes the signature and every
claim validation but carries no nonce claim is rejected with the nonce
failure (RuntimeError "Invalid or expired nonce") instead of succeeding. -/
theorem C3_counterexample :
    checkToken cfg0 env0 tokNoNonce = .ok "alice@example.com"
    ∧ tokNoNonce.payload.getField "nonce" = none
    ∧ get_verified_email cfg0 env0 tokNoNonce [] = (.error .invalidNonce, []) :=
  ⟨rfl, rfl, rfl⟩

/-- Claim C3 as amended: the nonce claim is required in effect.  For every
token whose signature and all other claims validate but which contains no
nonce claim, `get_verified_email` fails with the nonce error (the missing
claim raises the same KeyError as an unknown nonce and is caught by the same
handler); the registry still undergoes the expiry purge. -/
theorem C3_missing_nonce_rejected (cfg : Config) (env : Env) (tok : Token)
    (ns : Nonces) (s : String)
    (h1 : checkToken cfg env tok = .ok s)
    (h2 : tok.payload.getField "nonce" = none) :
    get_verified_email cfg env tok ns = (.error .invalidNonce, gcNonces env.now ns) := by
  unfold get_verified_email
  rw [h1, h2]

/-- Witness for the amended C3. -/
theorem C3_missing_nonce_rejected_witness :
    checkToken cfg0 env0 tokNoNonce = .ok "alice@example.com"
    ∧ tokNoNonce.payload.getField "nonce" = none
    ∧ get_verified_email cfg0 env0 tokNoNonce [("old", 5)] =
        (.error .invalidNonce, gcNonces env0.now [("old", 5)]) :=
  ⟨rfl, rfl,
   C3_missing_nonce_rejected cfg0 env0 tokNoNonce [("old", 5)] "alice@example.com" rfl rfl⟩

/-- Subscript success implies the Python membership test succeeds. -/
theorem getItem_ok_contains {j : Json} {k : String} {v : Json}
    (h : j.getItem k = .ok v) : j.pyContains k = .ok true := by
  cases j with
  | obj fs =>
    simp only [Json.getItem] at h
    simp only [Json.pyContains]
    cases hf : fs.find? (fun p => p.1 == k) with
    | none => rw [hf] at h; exact absurd h (by simp)
    | some q =>
      have hq1 : (q.1 == k) = true := by
        have hq2 := List.find?_some hf
        simpa using hq2
      rw [show (fs.any fun p => p.1 == k) = true from
        List.any_eq_true.mpr ⟨q, List.mem_of_find?_eq_some hf, hq1⟩]
  | null => exact absurd h (by simp [Json.getItem])
  | bool b => exact absurd h (by simp [Json.getItem])
  | num n => exact absurd h (by simp [Json.getItem])
  | str s => exact absurd h (by simp [Json.getItem])
  | arr xs => exact absurd h (by simp [Json.getItem])

/-- Counterexample to claim C4: a discovery fetch whose body is malformed JSON
(and likewise a transport failure) is not surfaced as the single key-discovery
error class: the exception is not a RuntimeError, escapes the verify handler,
and no 400 error page is produced. -/
theorem C4_counterexample :
    verify cfg0 envNoNet tok0 [] =
      (.unhandled (.jsonDecodeError "Expecting value: line 1 column 1"), [])
    ∧ verify cfg0 envDown tok0 [] = (.unhandled (.urlError "connection refused"), [])
    ∧ (Exc.jsonDecodeError "Expecting value: line 1 column 1").isRuntimeError = false :=
  ⟨rfl, rfl, rfl⟩

/-- Claim C4 as amended: only the missing-required-field discovery failures
(absent `jwks_uri` in the discovery document, absent `keys` in the JWK Set
document) are surfaced as the RuntimeError class and turned into the
structured 400 error page by the verify endpoint; a transport error or
malformed JSON in either fetch propagates as an uncaught exception. -/
theorem C4_discovery_error_surfacing (cfg : Config) (env : Env) (tok : Token)
    (ns : Nonces) :
    (∀ d, env.fetch (cfg.portier_origin ++ "/.well-known/openid-configuration") = .ok d →
        d.pyContains "jwks_uri" = .ok false →
        verify cfg env tok ns = (.errorPage .noJwksUri, ns))
    ∧ (∀ m, env.fetch (cfg.portier_origin ++ "/.well-known/openid-configuration") =
          .error (.transport m) →
        verify cfg env tok ns = (.unhandled (.urlError m), ns))
    ∧ (∀ m, env.fetch (cfg.portier_origin ++ "/.well-known/openid-configuration") =
          .error (.badJson m) →
        verify cfg env tok ns = (.unhandled (.jsonDecodeError m), ns))
    ∧ (∀ d u j,
        env.fetch (cfg.portier_origin ++ "/.well-known/openid-configuration") = .ok d →
        d.getItem "jwks_uri" = .ok (.str u) →
        env.fetch u = .ok j →
        j.pyContains "keys" = .ok false →
        verify cfg env tok ns = (.errorPage .noKeys, ns))
    ∧ (∀ d u m,
        env.fetch (cfg.portier_origin ++ "/.well-known/openid-configuration") = .ok d →
        d.getItem "jwks_uri" = .ok (.str u) →
        env.fetch u = .error (.transport m) →
        verify cfg env tok ns = (.unhandled (.urlError m), ns))
    ∧ (∀ d u m,
        env.fetch (cfg.portier_origin ++ "/.well-known/openid-configuration") = .ok d →
        d.getItem "jwks_uri" = .ok (.str u) →
        env.fetch u = .error (.badJson m) →
        verify cfg env tok ns = (.unhandled (.jsonDecodeError m), ns)) := by
  refine ⟨fun d h1 h2 => ?_, fun m h1 => ?_, fun m h1 => ?_,
    fun d u j h1 h2 h3 h4 => ?_, fun d u m h1 h2 h3 => ?_,
    fun d u m h1 h2 h3 => ?_⟩
  · simp [verify, get_verified_email, checkToken, discover_keys, h1, h2,
      Exc.isRuntimeError]
  · simp [verify, get_verified_email, checkToken, discover_keys, h1,
      FetchErr.toExc, Exc.isRuntimeError]
  · simp [verify, get_verified_email, checkToken, discover_keys, h1,
      FetchErr.toExc, Exc.isRuntimeError]
  · simp [verify, get_verified_email, checkToken, discover_keys, h1,
      getItem_ok_contains h2, h2, h3, h4, Exc.isRuntimeError]
  · simp [verify, get_verified_email, checkToken, discover_keys, h1,
      getItem_ok_contains h2, h2, h3, FetchErr.toExc, Exc.isRuntimeError]
  · simp [verify, get_verified_email, checkToken, discover_keys, h1,
      getItem_ok_contains h2, h2, h3, FetchErr.toExc, Exc.isRuntimeError]

/-- Witness for the amended C4: all six failure shapes at concrete networks. -/
theorem C4_discovery_error_surfacing_witness :
    verify cfg0 envNoUri tok0 [] = (.errorPage .noJwksUri, [])
    ∧ verify cfg0 envDown tok0 [] = (.unhandled (.urlError "connection refused"), [])
    ∧ verify cfg0 envNoNet tok0 [] =
        (.unhandled (.jsonDecodeError "Expecting value: line 1 column 1"), [])
    ∧ verify cfg0 envNoKeys tok0 [] = (.errorPage .noKeys, [])
    ∧ verify cfg0 envKeysDown tok0 [] = (.unhandled (.urlError "connection reset"), [])
    ∧ verify cfg0 envKeysBadJson tok0 [] =
        (.unhandled (.jsonDecodeError "Expecting value: line 1 column 1"), []) :=
  ⟨(C4_discovery_error_surfacing cfg0 envNoUri tok0 []).1 _ rfl rfl,
   (C4_discovery_error_surfacing cfg0 envDown tok0 []).2.1 _ rfl,
   (C4_discovery_error_surfacing cfg0 envNoNet tok0 []).2.2.1 _ rfl,
   (C4_discovery_error_surfacing cfg0 envNoKeys tok0 []).2.2.2.1 _
     "https://broker.example/keys" _ rfl rfl rfl rfl,
   (C4_discovery_error_surfacing cfg0 envKeysDown tok0 []).2.2.2.2.1 _
     "https://broker.example/keys" _ rfl rfl rfl,
   (C4_discovery_error_surfacing cfg0 envKeysBadJson tok0 []).2.2.2.2.2 _
     "https://broker.example/keys" _ rfl rfl rfl⟩

/-- Claim C6: a token whose header names a key identifier absent from the
fetched key set fails with the unknown-key error, never a signature error.
The environment (and with it the signature oracle) is arbitrary, so no
signature verification influences the outcome: the key lookup fails first. -/
theorem C6_unknown_key (cfg : Config) (env : Env) (tok : Token) (ns : Nonces)
    (ks : KeySet) (kidJ : Json)
    (hdisc : discover_keys env.fetch cfg.portier_origin = .ok ks)
    (hkid : tok.header.getItem "kid" = .ok kidJ)
    (hscal : kidJ.isScalar = true)
    (hmiss : dictFind ks kidJ = none) :
    get_verified_email cfg env tok ns = (.error (.unknownKey kidJ), ns)
    ∧ ∀ e, Exc.unknownKey kidJ ≠ Exc.invalidJWT e := by
  constructor
  · unfold get_verified_email checkToken
    rw [hdisc, hkid]
    simp [hscal, hmiss]
  · intro e h
    exact Exc.noConfusion h

/-- A verification that succeeds did so through the stateless token check. -/
theorem get_ok_checkToken {cfg : Config} {env : Env} {tok : Token}
    {ns ns2 : Nonces} {s : String}
    (h : get_verified_email cfg env tok ns = (.ok s, ns2)) :
    checkToken cfg env tok = .ok s := by
  unfold get_verified_email at h
  split at h
  · exact absurd (congrArg Prod.fst h) (by simp)
  next subject heq =>
    split at h
    · exact absurd (congrArg Prod.fst h) (by simp)
    · split at h
      next ns3 hp =>
        obtain ⟨h1, h2⟩ := (Prod.mk.injEq _ _ _ _).mp h
        rw [heq, Except.ok.inj h1]
      next e2 hp => exact absurd (congrArg Prod.fst h) (by simp)

/-- On success `jwt.decode` hands back the token payload. -/
theorem jwtDecode_ok_payload {sig : RSAKey → Token → Bool} {pk : RSAKey}
    {aud iss : String} {now : Int} {tok : Token} {p : Json}
    (h : jwtDecode sig pk aud iss now tok = .ok p) : p = tok.payload := by
  unfold jwtDecode at h
  split at h
  · split at h
    · split at h
      · split at h
        · split at h
          · exact absurd h (by simp)
          · exact (Except.ok.inj h).symm
        · exact absurd h (by simp)
      · exact absurd h (by simp)
    · exact absurd h (by simp)
  · exact absurd h (by simp)

/-- On success `jwt.decode` has established that the payload is an object. -/
theorem jwtDecode_ok_payload_obj {sig : RSAKey → Token → Bool} {pk : RSAKey}
    {aud iss : String} {now : Int} {tok : Token} {p : Json}
    (h : jwtDecode sig pk aud iss now tok = .ok p) :
    ∃ fs, tok.payload = .obj fs := by
  unfold jwtDecode at h
  split at h
  · split at h
    · split at h
      · split at h
        next fs hfs => exact ⟨fs, hfs⟩
        · exact absurd h (by simp)
      · exact absurd h (by simp)
    · exact absurd h (by simp)
  · exact absurd h (by simp)

/-- On success `jwt.decode` has validated the audience. -/
theorem jwtDecode_ok_aud {sig : RSAKey → Token → Bool} {pk : RSAKey}
    {aud iss : String} {now : Int} {tok : Token} {p : Json}
    (h : jwtDecode sig pk aud iss now tok = .ok p) :
    validateAud (tok.payload.getField "aud") aud = .ok () := by
  unfold jwtDecode at h
  split at h
  · split at h
    · split at h
      · split at h
        · split at h
          next hvc => exact absurd h (by simp)
          next u hvc =>
            have := hvc
            unfold validateClaims at this
            split at this
            · exact absurd this (by simp)
            · split at this
              · exact absurd this (by simp)
              · split at this
                · exact absurd this (by simp)
                · split at this
                  · exact absurd this (by simp)
                  · exact this
        · exact absurd h (by simp)
      · exact absurd h (by simp)
    · exact absurd h (by simp)
  · exact absurd h (by simp)

/-- A passing audience validation means `audOk` holds. -/
theorem validateAud_ok_audOk {a : Option Json} {aud : String}
    (h : validateAud a aud = .ok ()) : audOk a aud = true := by
  cases a with
  | none => exact absurd h (by simp [validateAud])
  | some j =>
    cases j with
    | str s =>
      simp only [validateAud] at h
      split at h
      · split at h
        next hall hany => simpa [audOk] using hany
        next hall hany => exact absurd h (by simp)
      · exact absurd h (by simp)
    | arr xs =>
      simp only [validateAud] at h
      split at h
      · split at h
        next hall hany => simp [audOk, hall, hany]
        next hall hany => exact absurd h (by simp)
      · exact absurd h (by simp)
    | null => exact absurd h (by simp [validateAud])
    | bool b => exact absurd h (by simp [validateAud])
    | num n => exact absurd h (by simp [validateAud])
    | obj fs => exact absurd h (by simp [validateAud])

/-- A successful stateless token check reached and passed `jwt.decode` with
some resolved public key. -/
theorem checkToken_ok_jwt {cfg : Config} {env : Env} {tok : Token} {s : String}
    (h : checkToken cfg env tok = .ok s) :
    ∃ pk, jwtDecode env.sigOk pk cfg.rp_origin cfg.portier_origin env.now tok =
      .ok tok.payload := by
  unfold checkToken at h
  split at h
  · exact absurd h (by simp)
  next keys heq =>
    split at h
    · exact absurd h (by simp)
    next kidJ hkid =>
      split at h
      · split at h
        · exact absurd h (by simp)
        next pubKey hfind =>
          split at h
          · exact absurd h (by simp)
          next payload hjwt =>
            exact ⟨pubKey, jwtDecode_ok_payload hjwt ▸ hjwt⟩
      · exact absurd h (by simp)

/-- A successful stateless token check implies the audience claim passed. -/
theorem checkToken_ok_aud {cfg : Config} {env : Env} {tok : Token} {s : String}
    (h : checkToken cfg env tok = .ok s) :
    audOk (tok.payload.getField "aud") cfg.rp_origin = true := by
  obtain ⟨pk, hjwt⟩ := checkToken_ok_jwt h
  exact validateAud_ok_audOk (jwtDecode_ok_aud hjwt)

/-- Computation rule: when discovery, kid resolution and `jwt.decode` all pass,
the stateless check is exactly the subject check of the payload. -/
theorem checkToken_eq_subCheck {cfg : Config} {env : Env} {tok : Token}
    {ks : KeySet} {kidJ : Json} {pk : RSAKey}
    (hdisc : discover_keys env.fetch cfg.portier_origin = .ok ks)
    (hkid : tok.header.getItem "kid" = .ok kidJ)
    (hscal : kidJ.isScalar = true)
    (hfind : dictFind ks kidJ = some pk)
    (hjwt : jwtDecode env.sigOk pk cfg.rp_origin cfg.portier_origin env.now tok =
      .ok tok.payload) :
    checkToken cfg env tok = subCheck tok.payload := by
  simp [checkToken, hdisc, hkid, hscal, hfind, hjwt]

/-- Field lookup on an object: an absent field subscripts to a KeyError. -/
theorem getField_none_getItem {fs : List (String × Json)} {k : String}
    (h : (Json.obj fs).getField k = none) :
    (Json.obj fs).getItem k = .error (.keyError k) := by
  simp only [Json.getField] at h
  simp only [Json.getItem]
  cases hf : fs.find? (fun p => p.1 == k) with
  | none => rfl
  | some q => rw [hf] at h; exact absurd h (by simp)

/-- Field lookup on an object: a present field subscripts to its value. -/
theorem getField_some_getItem {fs : List (String × Json)} {k : String} {v : Json}
    (h : (Json.obj fs).getField k = some v) :
    (Json.obj fs).getItem k = .ok v := by
  simp only [Json.getField] at h
  simp only [Json.getItem]
  cases hf : fs.find? (fun p => p.1 == k) with
  | none => rw [hf] at h; exact absurd h (by simp)
  | some q =>
    rw [hf] at h
    simp at h
    simp [h]

/-- Counterexample to claim C5: a token whose aud claim is a list holding the
relying-party origin next to a foreign origin does not exactly equal the
configured origin, yet the verification succeeds. -/
theorem C5_counterexample :
    tokListAud.payload.getField "aud" =
      some (.arr [.str "https://rp.example", .str "https://evil.example"])
    ∧ (∀ s : String,
        Json.arr [.str "https://rp.example", .str "https://evil.example"] ≠ .str s)
    ∧ cfg0.rp_origin = "https://rp.example"
    ∧ get_verified_email cfg0 env0 tokListAud [("n-5", 2000000)] =
        (.ok "alice@example.com", []) :=
  ⟨rfl, fun s h => Json.noConfusion h, rfl, rfl⟩

/-- Claim C5 as amended: a token whose aud claim neither equals the
relying-party origin (as a string) nor is a list of strings containing that
origin is always rejected, whatever the rest of the token and environment. -/
theorem C5_aud_must_contain_origin (cfg : Config) (env : Env) (tok : Token)
    (ns : Nonces)
    (h : audOk (tok.payload.getField "aud") cfg.rp_origin = false) :
    ∀ s, (get_verified_email cfg env tok ns).1 ≠ .ok s := by
  intro s hok
  have hpair : get_verified_email cfg env tok ns =
      ((get_verified_email cfg env tok ns).1, (get_verified_email cfg env tok ns).2) := rfl
  rw [hok] at hpair
  have hck := get_ok_checkToken hpair
  have haud := checkToken_ok_aud hck
  rw [h] at haud
  exact Bool.noConfusion haud

/-- Witness for the amended C5: a string audience of a different origin. -/
theorem C5_aud_must_contain_origin_witness :
    audOk (tokBadAud.payload.getField "aud") cfg0.rp_origin = false
    ∧ (get_verified_email cfg0 env0 tokBadAud [("n-2", 2000000)]).1 ≠
        .ok "alice@example.com" :=
  ⟨rfl, C5_aud_must_contain_origin cfg0 env0 tokBadAud [("n-2", 2000000)] rfl
    "alice@example.com"⟩

/-- Counterexample to claim C7: a token passing signature and every standard
claim check but lacking the sub claim crashes with an uncaught KeyError (not a
RuntimeError, so no ClaimError page): the verify endpoint does not handle it. -/
theorem C7_counterexample :
    get_verified_email cfg0 env0 tokNoSub [("n-7", 2000000)] =
      (.error (.keyError "sub"), [("n-7", 2000000)])
    ∧ verify cfg0 env0 tokNoSub [("n-7", 2000000)] =
        (.unhandled (.keyError "sub"), [("n-7", 2000000)])
    ∧ (Exc.keyError "sub").isRuntimeError = false :=
  ⟨rfl, rfl, rfl⟩

/-- Claim C7 as amended: for a token whose signature and standard claims
validate, a present string subject that does not contain `@` with nonempty
segments fails with the RuntimeError naming the invalid email address, while a
missing subject raises an uncaught KeyError for the sub claim instead of a
claim error; either way the registry is unchanged. -/
theorem C7_subject_check (cfg : Config) (env : Env) (tok : Token) (ns : Nonces)
    (ks : KeySet) (kidJ : Json) (pk : RSAKey)
    (hdisc : discover_keys env.fetch cfg.portier_origin = .ok ks)
    (hkid : tok.header.getItem "kid" = .ok kidJ)
    (hscal : kidJ.isScalar = true)
    (hfind : dictFind ks kidJ = some pk)
    (hjwt : jwtDecode env.sigOk pk cfg.rp_origin cfg.portier_origin env.now tok =
      .ok tok.payload) :
    (tok.payload.getField "sub" = none →
      get_verified_email cfg env tok ns = (.error (.keyError "sub"), ns))
    ∧ (∀ s2, tok.payload.getField "sub" = some (.str s2) → reMatchEmail s2 = false →
        get_verified_email cfg env tok ns = (.error (.invalidEmail s2), ns)) := by
  have hsub := checkToken_eq_subCheck hdisc hkid hscal hfind hjwt
  obtain ⟨fs, hobj⟩ := jwtDecode_ok_payload_obj hjwt
  constructor
  · intro hnone
    have hck : checkToken cfg env tok = .error (.keyError "sub") := by
      rw [hsub, hobj]
      unfold subCheck
      rw [getField_none_getItem (hobj ▸ hnone)]
    simp [get_verified_email, hck]
  · intro s2 hsome hbad
    have hck : checkToken cfg env tok = .error (.invalidEmail s2) := by
      rw [hsub, hobj]
      unfold subCheck
      rw [getField_some_getItem (hobj ▸ hsome)]
      simp [hbad]
    simp [get_verified_email, hck]

/-- Witness for the amended C7: subject `not-an-email` is rejected with the
invalid-address RuntimeError. -/
theorem C7_subject_check_witness :
    reMatchEmail "not-an-email" = false
    ∧ get_verified_email cfg0 env0 tokBadSub [("n-8", 2000000)] =
        (.error (.invalidEmail "not-an-email"), [("n-8", 2000000)]) :=
  ⟨rfl,
   (C7_subject_check cfg0 env0 tokBadSub [("n-8", 2000000)] keys0 (.str "k1")
       { e := 65537, n := 65537 } rfl rfl rfl rfl rfl).2 "not-an-email" rfl rfl⟩

/-- Witness for C6: kid `k9` is not in the key set holding only `k1`. -/
theorem C6_unknown_key_witness :
    discover_keys env0.fetch cfg0.portier_origin = .ok keys0
    ∧ dictFind keys0 (.str "k9") = none
    ∧ get_verified_email cfg0 env0 tokWrongKid [] =
        (.error (.unknownKey (.str "k9")), [])
    ∧ ∀ e, Exc.unknownKey (.str "k9") ≠ Exc.invalidJWT e :=
  ⟨rfl, rfl,
   (C6_unknown_key cfg0 env0 tokWrongKid [] keys0 (.str "k9") rfl rfl rfl rfl).1,
   (C6_unknown_key cfg0 env0 tokWrongKid [] keys0 (.str "k9") rfl rfl rfl rfl).2⟩

/-- The login handler always leaves an entry under the minted nonce. -/
theorem nonceSet_any (ns : Nonces) (k : String) (v : Int) :
    (nonceSet ns k v).any (fun p => p.1 == k) = true := by
  unfold nonceSet
  split
  next hany =>
    rw [List.any_eq_true] at hany ⊢
    obtain ⟨p, hp, hpk⟩ := hany
    refine ⟨(k, v), ?_, by simp⟩
    refine List.mem_map.mpr ⟨p, hp, ?_⟩
    simp only [beq_iff_eq] at hpk
    simp [hpk]
  next hany =>
    rw [List.any_eq_true]
    exact ⟨(k, v), by simp, by simp⟩

/-- Every entry under the minted nonce carries the minted expiry. -/
theorem nonceSet_val (ns : Nonces) (k : String) (v : Int) :
    ∀ p ∈ nonceSet ns k v, p.1 = k → p.2 = v := by
  intro p hp hpk
  unfold nonceSet at hp
  split at hp
  next hany =>
    obtain ⟨q, hq, hfq⟩ := List.mem_map.mp hp
    by_cases hqk : (q.1 == k) = true
    · rw [if_pos hqk] at hfq
      rw [← hfq]
    · rw [if_neg hqk] at hfq
      rw [← hfq] at hpk
      exact absurd (by simp [hpk]) hqk
  next hany =>
    rcases List.mem_append.mp hp with h1 | h1
    · exact absurd (List.any_eq_true.mpr ⟨p, h1, by simp [hpk]⟩) hany
    · rw [List.mem_singleton.mp h1]

/-- Once a nonce is absent from the registry, any further verification that
reaches the nonce step with that nonce fails with the nonce error and leaves
the nonce absent. -/
theorem replay_fails {cfg : Config} {env2 : Env} {tok2 : Token} {ns2 : Nonces}
    {nc s2 : String}
    (hck : checkToken cfg env2 tok2 = .ok s2)
    (hn : tok2.payload.getField "nonce" = some (.str nc))
    (habs : ns2.all (fun p => !(p.1 == nc)) = true) :
    get_verified_email cfg env2 tok2 ns2 = (.error .invalidNonce, gcNonces env2.now ns2)
    ∧ (gcNonces env2.now ns2).all (fun p => !(p.1 == nc)) = true := by
  have habs2 : (gcNonces env2.now ns2).all (fun p => !(p.1 == nc)) = true := by
    rw [List.all_eq_true] at habs ⊢
    intro p hp
    exact habs p (List.mem_of_mem_filter hp)
  have hnone : ((gcNonces env2.now ns2).any fun p => p.1 == nc) = false := by
    rw [List.any_eq_false]
    intro p hp
    have := List.all_eq_true.mp habs2 p hp
    simp only [Bool.not_eq_eq_eq_not, Bool.not_true] at this
    simp [this]
  have hpop : popNonce (.str nc) (gcNonces env2.now ns2) = .error .invalidNonce := by
    simp only [popNonce]
    rw [if_neg (by rw [hnone]; exact Bool.false_ne_true)]
  exact ⟨by simp [get_verified_email, hck, hn, hpop], habs2⟩

/-- Claim C1: a nonce minted by login is consumed exactly once.  The first
verification with an otherwise fully valid token carrying that nonce, before
its expiry, succeeds and removes the nonce from the registry; afterwards every
verification (any environment, any otherwise valid token) presenting the same
nonce fails with the nonce error, and the nonce stays absent. -/
theorem C1_nonce_single_use
    (cfg : Config) (env env2 : Env) (tok tok2 : Token)
    (email nc s s2 : String) (now0 : Int) (ns0 : Nonces)
    (h1 : checkToken cfg env tok = .ok s)
    (hn : tok.payload.getField "nonce" = some (.str nc))
    (hexp : env.now ≤ now0 + 30 * 60) :
    ∃ ns2,
      get_verified_email cfg env tok (login cfg email nc now0 ns0).1 = (.ok s, ns2)
      ∧ ns2.all (fun p => !(p.1 == nc)) = true
      ∧ (checkToken cfg env2 tok2 = .ok s2 →
         tok2.payload.getField "nonce" = some (.str nc) →
         get_verified_email cfg env2 tok2 ns2 =
           (.error .invalidNonce, gcNonces env2.now ns2)
         ∧ (gcNonces env2.now ns2).all (fun p => !(p.1 == nc)) = true) := by
  have hany : ((login cfg email nc now0 ns0).1.any fun p => p.1 == nc) = true :=
    nonceSet_any ns0 nc (now0 + 30 * 60)
  have hgc : ((gcNonces env.now (login cfg email nc now0 ns0).1).any
      fun p => p.1 == nc) = true := by
    rw [List.any_eq_true] at hany ⊢
    obtain ⟨p, hp, hpk⟩ := hany
    refine ⟨p, ?_, hpk⟩
    unfold gcNonces
    rw [List.mem_filter]
    refine ⟨hp, ?_⟩
    have hv : p.2 = now0 + 30 * 60 :=
      nonceSet_val ns0 nc (now0 + 30 * 60) p hp (by simpa using hpk)
    rw [hv]
    exact decide_eq_true hexp
  have hpop : popNonce (.str nc) (gcNonces env.now (login cfg email nc now0 ns0).1) =
      .ok ((gcNonces env.now (login cfg email nc now0 ns0).1).filter
        (fun p => !(p.1 == nc))) := by
    simp only [popNonce]
    rw [if_pos hgc]
  refine ⟨(gcNonces env.now (login cfg email nc now0 ns0).1).filter
      (fun p => !(p.1 == nc)), ?_, ?_, ?_⟩
  · simp [get_verified_email, h1, hn, hpop]
  · rw [List.all_eq_true]
    intro p hp
    exact (List.mem_filter.mp hp).2
  · intro hck2 hn2
    refine replay_fails hck2 hn2 ?_
    rw [List.all_eq_true]
    intro p hp
    exact (List.mem_filter.mp hp).2

/-- Scalar equality is equality together with hashability of the left value. -/
theorem scalarEq_iff (a b : Json) :
    Json.scalarEq a b = true ↔ a = b ∧ a.isScalar = true := by
  cases a <;> cases b <;> simp [Json.scalarEq, Json.isScalar]

/-- Scalar equality is symmetric. -/
theorem scalarEq_comm (a b : Json) : Json.scalarEq a b = Json.scalarEq b a := by
  rw [Bool.eq_iff_iff, scalarEq_iff, scalarEq_iff]
  constructor
  · rintro ⟨rfl, h⟩
    exact ⟨rfl, h⟩
  · rintro ⟨rfl, h⟩
    exact ⟨rfl, h⟩

/-- Lookup at a cons cell. -/
theorem dictFind_cons (p : Json × RSAKey) (m : KeySet) (x : Json) :
    dictFind (p :: m) x =
      if Json.scalarEq p.1 x = true then some p.2 else dictFind m x := by
  unfold dictFind
  by_cases h : Json.scalarEq p.1 x = true
  · rw [if_pos h]
    rw [show (List.find? (fun q => Json.scalarEq q.1 x) (p :: m)) =
        (match Json.scalarEq p.1 x with
         | true => some p
         | false => List.find? (fun q => Json.scalarEq q.1 x) m) from rfl]
    rw [h]
    rfl
  · rw [if_neg h]
    rw [show (List.find? (fun q => Json.scalarEq q.1 x) (p :: m)) =
        (match Json.scalarEq p.1 x with
         | true => some p
         | false => List.find? (fun q => Json.scalarEq q.1 x) m) from rfl]
    rw [Bool.eq_false_iff.mpr h]

/-- Lookup over an append is lookup in the left part, then the right part. -/
theorem dictFind_append (m1 m2 : KeySet) (x : Json) :
    dictFind (m1 ++ m2) x =
      (match dictFind m1 x with
       | some v => some v
       | none => dictFind m2 x) := by
  induction m1 with
  | nil => rfl
  | cons p m1 ih =>
    rw [List.cons_append, dictFind_cons, dictFind_cons]
    by_cases h : Json.scalarEq p.1 x = true
    · rw [if_pos h, if_pos h]
    · rw [if_neg h, if_neg h]
      exact ih

/-- Lookup after a dict insertion. -/
theorem dictFind_insert (m : KeySet) (k : Json) (v : RSAKey) (x : Json) :
    dictFind (dictInsert m k v) x =
      if Json.scalarEq x k = true then some v else dictFind m x := by
  induction m with
  | nil =>
    rw [show dictInsert [] k v = [(k, v)] from rfl, dictFind_cons,
      scalarEq_comm k x]
  | cons p m ih =>
    by_cases hpk : Json.scalarEq p.1 k = true
    · rw [show dictInsert (p :: m) k v =
          (if Json.scalarEq p.1 k = true then (p.1, v) :: m
           else p :: dictInsert m k v) from rfl,
        if_pos hpk, dictFind_cons, dictFind_cons]
      by_cases hpx : Json.scalarEq p.1 x = true
      · have hxk : Json.scalarEq x k = true := by
          obtain ⟨hk1, hs⟩ := (scalarEq_iff _ _).mp hpk
          obtain ⟨hx1, _⟩ := (scalarEq_iff _ _).mp hpx
          exact (scalarEq_iff _ _).mpr ⟨by rw [← hx1, hk1], by rw [← hx1]; exact hs⟩
        rw [if_pos hxk]
        simp [hpx]
      · have hxk : ¬ Json.scalarEq x k = true := by
          intro hxk
          apply hpx
          obtain ⟨hk1, hs⟩ := (scalarEq_iff _ _).mp hpk
          obtain ⟨hx1, _⟩ := (scalarEq_iff _ _).mp hxk
          exact (scalarEq_iff _ _).mpr ⟨by rw [hk1, ← hx1], hs⟩
        rw [if_neg hxk]
        simp [hpx]
    · rw [show dictInsert (p :: m) k v =
          (if Json.scalarEq p.1 k = true then (p.1, v) :: m
           else p :: dictInsert m k v) from rfl,
        if_neg hpk, dictFind_cons, dictFind_cons]
      by_cases hpx : Json.scalarEq p.1 x = true
      · have hxk : ¬ Json.scalarEq x k = true := by
          intro hxk
          apply hpk
          obtain ⟨hx1, _⟩ := (scalarEq_iff _ _).mp hxk
          obtain ⟨hp1, hps⟩ := (scalarEq_iff _ _).mp hpx
          exact (scalarEq_iff _ _).mpr ⟨by rw [hp1, hx1], hps⟩
        rw [if_neg hxk]
        simp [hpx]
      · rw [if_neg hpx, if_neg hpx, ih]

/-- Lookup after folding dict insertions over a list of bindings: the bindings
win over the accumulator, later bindings over earlier ones. -/
theorem dictFind_foldl (S : KeySet) (m : KeySet) (x : Json) :
    dictFind (S.foldl (fun acc p => dictInsert acc p.1 p.2) m) x =
      (match dictFindLast S x with
       | some v => some v
       | none => dictFind m x) := by
  induction S generalizing m with
  | nil => rfl
  | cons p S ih =>
    rw [List.foldl_cons, ih]
    have hlast : dictFindLast (p :: S) x =
        (match dictFindLast S x with
         | some v => some v
         | none => if Json.scalarEq p.1 x = true then some p.2 else none) := by
      unfold dictFindLast
      rw [List.reverse_cons, dictFind_append, dictFind_cons]
      cases hS : dictFind S.reverse x <;> rfl
    rw [hlast]
    cases hS : dictFindLast S x with
    | some v => rfl
    | none =>
      rw [dictFind_insert]
      by_cases hpx : Json.scalarEq p.1 x = true
      · rw [if_pos (show Json.scalarEq x p.1 = true from by
          rw [scalarEq_comm]; exact hpx), if_pos hpx]
      · rw [if_neg (show ¬ Json.scalarEq x p.1 = true from by
          rw [scalarEq_comm]; exact hpx), if_neg hpx]

/-- When the binding keys are distinct, last-wins lookup and first-match
lookup agree. -/
theorem dictFindLast_nodup (S : KeySet) (x : Json)
    (hnd : (S.map Prod.fst).Nodup) :
    dictFindLast S x = dictFind S x := by
  induction S with
  | nil => rfl
  | cons p S ih =>
    have hnd2 : p.1 ∉ S.map Prod.fst ∧ (S.map Prod.fst).Nodup := by
      rw [List.map_cons, List.nodup_cons] at hnd
      exact hnd
    unfold dictFindLast
    rw [List.reverse_cons, dictFind_append, dictFind_cons]
    by_cases hpx : Json.scalarEq p.1 x = true
    · have hSnone : dictFind S.reverse x = none := by
        unfold dictFind
        rw [show (S.reverse.find? fun q => Json.scalarEq q.1 x) = none from by
          rw [List.find?_eq_none]
          intro q hq hqx
          apply hnd2.1
          obtain ⟨hq1, _⟩ := (scalarEq_iff _ _).mp hqx
          obtain ⟨hp1, _⟩ := (scalarEq_iff _ _).mp hpx
          exact List.mem_map.mpr ⟨q, List.mem_reverse.mp hq, by rw [hq1, ← hp1]⟩]
        rfl
      rw [hSnone, dictFind_cons, if_pos hpx, if_pos hpx]
    · rw [dictFind_cons, if_neg hpx, if_neg hpx]
      have hih := ih hnd2.2
      unfold dictFindLast at hih
      rw [hih]
      cases hS : dictFind S x <;> rfl

/-- Under the totality hypotheses of C8, the dict comprehension succeeds and
folds exactly the spec-side RS256 bindings into the accumulator. -/
theorem buildKeys_ok (ks : List Json) (m : KeySet)
    (halg : ∀ k ∈ ks, ∃ a, k.getItem "alg" = .ok a)
    (hrs : ∀ k ∈ ks, ∀ a, k.getItem "alg" = .ok a → isRS256 a = true →
           ∃ kidJ pk, k.getItem "kid" = .ok kidJ ∧ kidJ.isScalar = true ∧
             jwk_to_rsa k = .ok pk) :
    buildKeys m ks =
      .ok ((specRS256 ks).foldl (fun acc p => dictInsert acc p.1 p.2) m) := by
  induction ks generalizing m with
  | nil => rfl
  | cons k rest ih =>
    obtain ⟨a, ha⟩ := halg k (List.mem_cons_self k rest)
    have htail1 : ∀ k2 ∈ rest, ∃ a2, k2.getItem "alg" = .ok a2 :=
      fun k2 h2 => halg k2 (List.mem_cons_of_mem k h2)
    have htail2 : ∀ k2 ∈ rest, ∀ a2, k2.getItem "alg" = .ok a2 → isRS256 a2 = true →
        ∃ kidJ pk, k2.getItem "kid" = .ok kidJ ∧ kidJ.isScalar = true ∧
          jwk_to_rsa k2 = .ok pk :=
      fun k2 h2 => hrs k2 (List.mem_cons_of_mem k h2)
    by_cases hr : isRS256 a = true
    · obtain ⟨kidJ, pk, hkid, hscal, hjwk⟩ :=
        hrs k (List.mem_cons_self k rest) a ha hr
      have hspec : specRS256 (k :: rest) = (kidJ, pk) :: specRS256 rest := by
        simp [specRS256, ha, hkid, hjwk, hr, hscal]
      have hbuild : buildKeys m (k :: rest) = buildKeys (dictInsert m kidJ pk) rest := by
        simp [buildKeys, ha, hr, hkid, hjwk, hscal]
      rw [hbuild, ih (dictInsert m kidJ pk) htail1 htail2, hspec, List.foldl_cons]
    · have hspec : specRS256 (k :: rest) = specRS256 rest := by
        cases hkid : k.getItem "kid" with
        | error e =>
          cases hjw : jwk_to_rsa k with
          | error e2 => simp [specRS256, ha, hkid, hjw]
          | ok pk => simp [specRS256, ha, hkid, hjw]
        | ok kidJ =>
          cases hjw : jwk_to_rsa k with
          | error e2 => simp [specRS256, ha, hkid, hjw]
          | ok pk => simp [specRS256, ha, hkid, hjw, hr]
      have hbuild : buildKeys m (k :: rest) = buildKeys m rest := by
        simp [buildKeys, ha, hr]
      rw [hbuild, ih m htail1 htail2, hspec]

/-- Claim C8: for a reachable discovery (both fetches return JSON, with the
`jwks_uri` and `keys` members present), when every fetched JWK entry declares
an algorithm and every RS256 entry carries a hashable key identifier and
decodable `e`/`n` members with pairwise distinct identifiers, `discover_keys`
succeeds and its mapping contains exactly the RS256 entries keyed by their
identifiers with the decoded components; entries declaring another algorithm
are dropped silently (the hypotheses place no demand on their other members,
so their absence causes no error). -/
theorem C8_discover_keys_rs256 (env : Env) (broker u : String) (d j : Json)
    (ks : List Json)
    (h1 : env.fetch (broker ++ "/.well-known/openid-configuration") = .ok d)
    (h2 : d.getItem "jwks_uri" = .ok (.str u))
    (h3 : env.fetch u = .ok j)
    (h4 : j.getItem "keys" = .ok (.arr ks))
    (halg : ∀ k ∈ ks, ∃ a, k.getItem "alg" = .ok a)
    (hrs : ∀ k ∈ ks, ∀ a, k.getItem "alg" = .ok a → isRS256 a = true →
           ∃ kidJ pk, k.getItem "kid" = .ok kidJ ∧ kidJ.isScalar = true ∧
             jwk_to_rsa k = .ok pk)
    (hnd : ((specRS256 ks).map Prod.fst).Nodup) :
    ∃ m, discover_keys env.fetch broker = .ok m
      ∧ ∀ x, dictFind m x = dictFind (specRS256 ks) x := by
  have hc1 := getItem_ok_contains h2
  have hc2 := getItem_ok_contains h4
  refine ⟨(specRS256 ks).foldl (fun acc p => dictInsert acc p.1 p.2) [], ?_, ?_⟩
  · simp [discover_keys, h1, hc1, h2, h3, hc2, h4, buildKeys_ok ks [] halg hrs]
  · intro x
    rw [dictFind_foldl, dictFindLast_nodup _ _ hnd]
    cases hS : dictFind (specRS256 ks) x <;> rfl

/-- Witness for C8: a key set holding one RS256 entry and one ES256 entry that
lacks kid, e and n; the ES256 entry is dropped without error. -/
theorem C8_discover_keys_rs256_witness :
    specRS256 [jwkEntry, jwkES] = keys0
    ∧ ∃ m, discover_keys envMixed.fetch "https://broker.example" = .ok m
        ∧ ∀ x, dictFind m x = dictFind (specRS256 [jwkEntry, jwkES]) x :=
  ⟨rfl,
   C8_discover_keys_rs256 envMixed "https://broker.example"
     "https://broker.example/keys" discDoc (.obj [("keys", .arr [jwkEntry, jwkES])])
     [jwkEntry, jwkES] rfl rfl rfl rfl
     (by
       intro k hk
       rcases List.mem_cons.mp hk with rfl | hk2
       · exact ⟨.str "RS256", rfl⟩
       · rcases List.mem_cons.mp hk2 with rfl | hk3
         · exact ⟨.str "ES256", rfl⟩
         · exact absurd hk3 (List.not_mem_nil k))
     (by
       intro k hk a2 ha2 hr2
       rcases List.mem_cons.mp hk with rfl | hk2
       · exact ⟨.str "k1", { e := 65537, n := 65537 }, rfl, rfl, rfl⟩
       · rcases List.mem_cons.mp hk2 with rfl | hk3
         · have ha3 : Json.str "ES256" = a2 := Except.ok.inj ha2
           rw [← ha3] at hr2
           exact absurd hr2 (by simp [isRS256])
         · exact absurd hk3 (List.not_mem_nil k))
     (by
       rw [show ((specRS256 [jwkEntry, jwkES]).map Prod.fst) = [Json.str "k1"] from rfl]
       exact List.nodup_singleton _)⟩

/-- Witness for C1: the end-to-end scenario with the concrete deployment. -/
theorem C1_nonce_single_use_witness :
    checkToken cfg0 env0 tok0 = .ok "alice@example.com"
    ∧ tok0.payload.getField "nonce" = some (.str "n-1")
    ∧ ((1000000 : Int) ≤ 999000 + 30 * 60)
    ∧ ∃ ns2,
        get_verified_email cfg0 env0 tok0
          (login cfg0 "alice@example.com" "n-1" 999000 []).1 =
            (.ok "alice@example.com", ns2)
        ∧ ns2.all (fun p => !(p.1 == "n-1")) = true
        ∧ (checkToken cfg0 env0 tok0 = .ok "alice@example.com" →
           tok0.payload.getField "nonce" = some (.str "n-1") →
           get_verified_email cfg0 env0 tok0 ns2 =
             (.error .invalidNonce, gcNonces env0.now ns2)
           ∧ (gcNonces env0.now ns2).all (fun p => !(p.1 == "n-1")) = true) :=
  ⟨rfl, rfl, by decide,
   C1_nonce_single_use cfg0 env0 env0 tok0 tok0 "alice@example.com" "n-1"
     "alice@example.com" "alice@example.com" 999000 [] rfl rfl (by decide)⟩

end DemoRP
